import Mathlib

/-!
Verification development for the All Assist dispatch backend (`src/main.py`).

The Python service is shallowly embedded in Lean: each HTTP handler becomes a
function from an explicit database state to a response together with the next
state.  Machine floats are idealised as real numbers, MongoDB collections as
lists of structured documents (in insertion order, matching Mongo's natural
order for the unindexed collections used here), and `update_one` as an update
of the first matching document.  `database.create_document` is not part of the
source tree; following the spec's persistence contract (§6) it inserts a
document keyed by a generated identifier that is mirrored into an `id` field.
Generated identifiers are modelled as naturals drawn from a counter held in
the state.
-/

open Real List

noncomputable section

/-- `LocationDTO` from `main.py`: a latitude/longitude pair in degrees. -/
structure LocationDTO where
  lat : ℝ
  lng : ℝ

/-- `math.radians`: degrees to radians. -/
def radians (x : ℝ) : ℝ := x * π / 180

/-- `math.atan2 y x`, idealised over the reals (signed zeros ignored). -/
def atan2 (y x : ℝ) : ℝ :=
  if 0 < x then arctan (y / x)
  else if x < 0 then
    (if 0 ≤ y then arctan (y / x) + π else arctan (y / x) - π)
  else
    (if 0 < y then π / 2 else if y < 0 then -(π / 2) else 0)

/-- `distance_km` from `main.py`: haversine great-circle distance with Earth
radius 6371 km.  Direct transcription of the source, with Python floats
idealised as reals. -/
def distance_km (a b : LocationDTO) : ℝ :=
  let R : ℝ := 6371.0
  let lat1 := radians a.lat
  let lon1 := radians a.lng
  let lat2 := radians b.lat
  let lon2 := radians b.lng
  let dlon := lon2 - lon1
  let dlat := lat2 - lat1
  let aa := Real.sin (dlat / 2) ^ 2 +
    Real.cos lat1 * Real.cos lat2 * Real.sin (dlon / 2) ^ 2
  let c := 2 * atan2 (Real.sqrt aa) (Real.sqrt (1 - aa))
  R * c

/-- Python's `round(x, 2)`, idealised over the reals as rounding to the
nearest multiple of 1/100 (the half-to-even tie rule of `round` is immaterial
here: no computation below lands on an exact tie). -/
def round2 (x : ℝ) : ℝ := (round (x * 100) : ℤ) / 100

/-- A `providerprofile` document.  `service_types` absent in Mongo is read by
the source as `p.get("service_types") or []`, so absence is modelled as the
empty list.  `oid` is the storage `_id`; `id` the mirrored identifier. -/
structure ProviderProfileDoc where
  oid : Nat
  id : Option Nat
  user_id : Nat
  status : String
  service_types : List String
  lat : Option ℝ
  lng : Option ℝ

/-- One element of the `providers` array returned by `GET /providers/nearby`. -/
structure NearbyEntry where
  user_id : Nat
  lat : ℝ
  lng : ℝ
  distance_km : ℝ

/-- Python truthiness of an optional string: `None` and `""` are falsy. -/
def truthyS : Option String → Bool
  | none => false
  | some t => !(t == "")

/-- The `continue` guard `service_type and service_type not in
(p.get("service_types") or [])` of `providers_nearby`. -/
def serviceTypeSkip (service_type : Option String) (types : List String) : Bool :=
  truthyS service_type && !(types.contains (service_type.getD ""))

/-- Loop body of `providers_nearby`: the optional entry contributed by one
profile document. -/
def nearbyEntry (origin : LocationDTO) (service_type : Option String)
    (radius_km : ℝ) (p : ProviderProfileDoc) : Option NearbyEntry :=
  if p.status = "online" then
    if serviceTypeSkip service_type p.service_types then none
    else
      match p.lat, p.lng with
      | some la, some ln =>
        let d := distance_km origin ⟨la, ln⟩
        if d ≤ radius_km then some ⟨p.user_id, la, ln, round2 d⟩ else none
      | _, _ => none
  else none

/-- Comparison used by `results.sort(key=lambda x: x["distance_km"])`. -/
def distLe (a b : NearbyEntry) : Prop := a.distance_km ≤ b.distance_km

instance : DecidableRel distLe := fun a b =>
  inferInstanceAs (Decidable (a.distance_km ≤ b.distance_km))

instance : IsTotal NearbyEntry distLe := ⟨fun a b => le_total a.distance_km b.distance_km⟩

instance : IsTrans NearbyEntry distLe := ⟨fun _ _ _ => le_trans⟩

/-- `GET /providers/nearby` from `main.py`: scan the online profiles in
natural order, filter, and stable-sort ascending by the rounded
`distance_km` field.  Python's `list.sort` is stable; `List.insertionSort`
with the non-strict key comparison is the same stable sort. -/
def providers_nearby (profiles : List ProviderProfileDoc) (lat lng : ℝ)
    (service_type : Option String) (radius_km : ℝ) : List NearbyEntry :=
  List.insertionSort distLe (profiles.filterMap (nearbyEntry ⟨lat, lng⟩ service_type radius_km))

/-- A `user` document.  `oid` is the storage `_id`; `id` the mirrored
identifier, absent in documents created before the mirror write. -/
structure UserDoc where
  oid : Nat
  id : Option Nat
  name : String
  email : Option String
  phone : Option String
  role : String
  password_hash : Option String
  is_verified : Bool
  is_active : Bool

/-- `user.get("id") or str(user.get("_id"))`: the identifier the handlers use
for the calling user (mirrored ids are never empty strings, so Python
truthiness reduces to presence). -/
def callerId (u : UserDoc) : Nat := u.id.getD u.oid

/-- A `servicerequest` document.  `motorist_id`, `service_type` and the pickup
coordinates are always written at creation (schema-required). -/
structure RequestDoc where
  oid : Nat
  id : Option Nat
  motorist_id : Nat
  service_type : String
  description : Option String
  pickup_lat : ℝ
  pickup_lng : ℝ
  provider_id : Option Nat
  status : String
  updated_at : Option Nat

/-- A `providerapplication` document. -/
structure ApplicationDoc where
  oid : Nat
  id : Option Nat
  user_id : Nat
  company_name : Option String
  service_types : List String
  license_number : Option String
  insurance_policy : Option String
  documents : List String
  status : String

/-- A `payment` document. -/
structure PaymentDoc where
  oid : Nat
  id : Option Nat
  request_id : Nat
  motorist_id : Nat
  provider_id : Option Nat
  amount : ℝ
  currency : String
  status : String
  gateway : String
  updated_at : Option Nat

/-- A `notificationtoken` document. -/
structure TokenDoc where
  oid : Nat
  id : Option Nat
  user_id : Nat
  fcm_token : String
  platform : String

/-- A `review` document. -/
structure ReviewDoc where
  oid : Nat
  id : Option Nat
  request_id : Nat
  motorist_id : Nat
  provider_id : Nat
  rating : Int
  comment : Option String

/-- A `dispute` document. -/
structure DisputeDoc where
  oid : Nat
  id : Option Nat
  request_id : Nat
  raised_by : String
  reason : String
  details : Option String
  status : String

/-- The shared document store.  One list per collection, in insertion order.
`next_id` is the supply of generated identifiers (modelled from the spec §6:
ids are generated at document creation and mirrored into `id`); `time` is the
wall clock read by `datetime.now`. -/
structure DBState where
  next_id : Nat
  time : Nat
  user : List UserDoc
  providerprofile : List ProviderProfileDoc
  servicerequest : List RequestDoc
  providerapplication : List ApplicationDoc
  payment : List PaymentDoc
  notificationtoken : List TokenDoc
  review : List ReviewDoc
  dispute : List DisputeDoc

/-- Mongo `update_one`: rewrite the first document matching the filter, leave
everything else in place. -/
def updateFirst (p : α → Bool) (f : α → α) : List α → List α
  | [] => []
  | x :: xs => if p x then f x :: xs else x :: updateFirst p f xs

/-- `RegisterDTO` request body. -/
structure RegisterDTO where
  name : String
  email : Option String
  phone : Option String
  password : Option String
  role : String

/-- `LoginDTO` request body. -/
structure LoginDTO where
  email : Option String
  phone : Option String
  password : Option String

/-- `RequestCreateDTO` request body. -/
structure RequestCreateDTO where
  service_type : String
  description : Option String
  pickup_lat : ℝ
  pickup_lng : ℝ

/-- `ProviderStatusDTO` request body. -/
structure ProviderStatusDTO where
  status : String
  lat : Option ℝ
  lng : Option ℝ

/-- `ProviderApplyDTO` request body. -/
structure ProviderApplyDTO where
  company_name : Option String
  service_types : List String
  license_number : Option String
  insurance_policy : Option String

/-- `PaymentIntentDTO` request body. -/
structure PaymentIntentDTO where
  request_id : Nat
  amount : ℝ
  currency : String

/-- `NotificationSendDTO` request body. -/
structure NotificationSendDTO where
  user_id : Nat
  title : String
  body : String

/-- An endpoint outcome: `Except.error c` is an `HTTPException` with status
code `c`, `Except.ok` the JSON success payload. -/
abbrev Api (α : Type) := Except Nat α

/-- `POST /auth/register` from `main.py`.  The password is hashed by the
external `passlib` context, abstracted as `hashPw`; `create_token` is
abstracted as the `(id, role)` claim pair.  `create_document` is modelled from
the spec (§6): insert with a generated id mirrored into `id`; the subsequent
guarded mirror write of the source is then a no-op but is modelled anyway. -/
def register (hashPw : String → String) (payload : RegisterDTO) (s : DBState) :
    Api (Nat × String) × DBState :=
  if truthyS payload.email && (s.user.find? (fun u => u.email == payload.email)).isSome then
    (.error 400, s)
  else if truthyS payload.phone && (s.user.find? (fun u => u.phone == payload.phone)).isSome then
    (.error 400, s)
  else
    let uid := s.next_id
    let doc : UserDoc :=
      { oid := uid, id := some uid, name := payload.name, email := payload.email,
        phone := payload.phone, role := payload.role,
        password_hash := if truthyS payload.password then
          some (hashPw (payload.password.getD "")) else none,
        is_verified := false, is_active := true }
    let users := s.user ++ [doc]
    let users := updateFirst (fun u => u.id == none && u.oid == uid)
      (fun u => { u with id := some uid }) users
    (.ok (uid, payload.role), { s with next_id := uid + 1, user := users })

/-- The query document built by `login`: only truthy fields are added, and a
user matches when every field of the query agrees. -/
def loginMatches (payload : LoginDTO) (u : UserDoc) : Bool :=
  (if truthyS payload.email then u.email == payload.email else true) &&
  (if truthyS payload.phone then u.phone == payload.phone else true)

/-- `POST /auth/login` from `main.py`.  `pwd_context.verify` is the external
bcrypt check, abstracted as `verifyPw`.  Read-only, so no state is returned;
the bearer token is abstracted as the `(id, role)` claim pair of the user it
is issued for. -/
def login (verifyPw : String → String → Bool) (payload : LoginDTO) (s : DBState) :
    Api (Nat × String) :=
  if truthyS payload.email || truthyS payload.phone then
    match s.user.find? (loginMatches payload) with
    | none => .error 401
    | some u =>
      if truthyS payload.password && truthyS u.password_hash then
        if verifyPw (payload.password.getD "") (u.password_hash.getD "") then
          .ok (callerId u, u.role)
        else .error 401
      else .ok (callerId u, u.role)
  else .error 401

/-- `POST /providers/apply` from `main.py`. -/
def provider_apply (u : UserDoc) (payload : ProviderApplyDTO) (s : DBState) :
    Api Nat × DBState :=
  if u.role = "provider" ∨ u.role = "admin" then
    let aid := s.next_id
    let doc : ApplicationDoc :=
      { oid := aid, id := some aid, user_id := callerId u,
        company_name := payload.company_name, service_types := payload.service_types,
        license_number := payload.license_number, insurance_policy := payload.insurance_policy,
        documents := [], status := "pending" }
    (.ok aid, { s with next_id := aid + 1, providerapplication := s.providerapplication ++ [doc] })
  else (.error 403, s)

/-- `POST /providers/status` from `main.py`: upsert the caller's profile. -/
def provider_status (u : UserDoc) (payload : ProviderStatusDTO) (s : DBState) :
    Api Unit × DBState :=
  if u.role = "provider" ∨ u.role = "admin" then
    let cid := callerId u
    let withPos := payload.lat.isSome && payload.lng.isSome
    if (s.providerprofile.find? (fun p => p.user_id == cid)).isSome then
      let upd := fun (p : ProviderProfileDoc) =>
        { p with user_id := cid, status := payload.status,
                 lat := if withPos then payload.lat else p.lat,
                 lng := if withPos then payload.lng else p.lng }
      let profiles := updateFirst (fun p => p.user_id == cid) upd s.providerprofile
      (.ok (), { s with providerprofile := profiles })
    else
      let pid := s.next_id
      let doc : ProviderProfileDoc :=
        { oid := pid, id := some pid, user_id := cid, status := payload.status,
          service_types := [],
          lat := if withPos then payload.lat else none,
          lng := if withPos then payload.lng else none }
      (.ok (), { s with next_id := pid + 1, providerprofile := s.providerprofile ++ [doc] })
  else (.error 403, s)

/-- The match object of a successful auto-assignment in `create_request`. -/
structure MatchInfo where
  provider_id : Nat
  eta_min : Int

/-- First phase of `POST /requests`: persist the new `servicerequest` document
with status `pending`.  Returns the generated request id. -/
def create_request_insert (u : UserDoc) (payload : RequestCreateDTO) (s : DBState) :
    Nat × DBState :=
  let rid := s.next_id
  let doc : RequestDoc :=
    { oid := rid, id := some rid, motorist_id := callerId u,
      service_type := payload.service_type, description := payload.description,
      pickup_lat := payload.pickup_lat, pickup_lng := payload.pickup_lng,
      provider_id := none, status := "pending", updated_at := none }
  (rid, { s with next_id := rid + 1, servicerequest := s.servicerequest ++ [doc] })

/-- Second phase of `POST /requests`: the unguarded read of the online
provider pool (`providers_nearby` with the request's service type and the
default 30 km radius). -/
def create_request_read (payload : RequestCreateDTO) (s : DBState) : List NearbyEntry :=
  providers_nearby s.providerprofile payload.pickup_lat payload.pickup_lng
    (some payload.service_type) 30

/-- Third phase of `POST /requests`: commit the match read earlier, if any.
The nearest entry is chosen; the request document is rewritten to
`provider_id`/`assigned` and the first profile with the chosen `user_id` to
`busy`.  `int(d / 0.6)` truncates toward zero, which on the nonnegative
distances equals the floor. -/
def create_request_commit (rid : Nat) (nearby : List NearbyEntry) (s : DBState) :
    Option MatchInfo × DBState :=
  match nearby with
  | [] => (none, s)
  | chosen :: _ =>
    let reqs := updateFirst (fun d => d.id == some rid)
      (fun d => { d with provider_id := some chosen.user_id, status := "assigned" })
      s.servicerequest
    let profiles := updateFirst (fun p => p.user_id == chosen.user_id)
      (fun p => { p with status := "busy" }) s.providerprofile
    (some { provider_id := chosen.user_id, eta_min := max 3 ⌊chosen.distance_km / 0.6⌋ },
      { s with servicerequest := reqs, providerprofile := profiles })

/-- `POST /requests` from `main.py`: role gate, then the three phases above in
sequence. -/
def create_request (u : UserDoc) (payload : RequestCreateDTO) (s : DBState) :
    Api (Nat × Option MatchInfo) × DBState :=
  if u.role = "motorist" then
    let (rid, s1) := create_request_insert u payload s
    let nearby := create_request_read payload s1
    let (m, s2) := create_request_commit rid nearby s1
    (.ok (rid, m), s2)
  else (.error 403, s)

/-- The lookup of `update_request_status`: by mirrored `id` first, falling
back to the raw `_id`. -/
def findReq (s : DBState) (rid : Nat) : Option RequestDoc :=
  match s.servicerequest.find? (fun d => d.id == some rid) with
  | some d => some d
  | none => s.servicerequest.find? (fun d => d.oid == rid)

/-- The target statuses admitted by the `Literal` annotation of
`update_request_status` (FastAPI rejects anything else with 422 before the
handler runs). -/
def validTarget (st : String) : Bool :=
  st ∈ ["enroute", "in_progress", "completed", "cancelled"]

/-- The ownership test `value not in (user.get("id"), str(user.get("_id")))`,
negated: the checked id matches one of the caller's two identifiers. -/
def ownsAs (v : Option Nat) (u : UserDoc) : Bool :=
  v == u.id || v == some u.oid

/-- `POST /requests/{request_id}/status` from `main.py`.  Note the write
filters on the mirrored `id` field only, even though the lookup also fell
back to `_id`; no predecessor-state validation is performed. -/
def update_request_status (u : UserDoc) (rid : Nat) (st : String) (s : DBState) :
    Api Unit × DBState :=
  if validTarget st then
    match findReq s rid with
    | none => (.error 404, s)
    | some req =>
      if u.role = "provider" ∧ ¬ownsAs req.provider_id u then (.error 403, s)
      else if u.role = "motorist" ∧ ¬ownsAs (some req.motorist_id) u then (.error 403, s)
      else
        let reqs := updateFirst (fun d => d.id == some rid)
          (fun d => { d with status := st, updated_at := some s.time }) s.servicerequest
        (.ok (), { s with servicerequest := reqs })
  else (.error 422, s)

/-- `POST /payments/intent` from `main.py`. -/
def create_payment_intent (u : UserDoc) (payload : PaymentIntentDTO) (s : DBState) :
    Api Nat × DBState :=
  let sr := s.servicerequest.find? (fun d => d.id == some payload.request_id)
  let pid := s.next_id
  let doc : PaymentDoc :=
    { oid := pid, id := some pid, request_id := payload.request_id,
      motorist_id := callerId u, provider_id := sr.bind (fun d => d.provider_id),
      amount := payload.amount, currency := payload.currency,
      status := "initiated", gateway := "peach", updated_at := none }
  (.ok pid, { s with next_id := pid + 1, payment := s.payment ++ [doc] })

/-- `POST /payments/webhook` from `main.py`. -/
def payments_webhook (intent_id : Option Nat) (st : Option String) (s : DBState) :
    Api Unit × DBState :=
  match intent_id with
  | none => (.ok (), s)
  | some iid =>
    let pays := updateFirst (fun p => p.id == some iid)
      (fun p => { p with status := st.getD "succeeded", updated_at := some s.time }) s.payment
    (.ok (), { s with payment := pays })

/-- `POST /notifications/register` from `main.py`. -/
def register_fcm_token (u : UserDoc) (tok platform : String) (s : DBState) :
    Api Unit × DBState :=
  let tid := s.next_id
  let doc : TokenDoc :=
    { oid := tid, id := some tid, user_id := callerId u, fcm_token := tok,
      platform := platform }
  (.ok (), { s with next_id := tid + 1, notificationtoken := s.notificationtoken ++ [doc] })

/-- `POST /notifications/send` from `main.py`: reads tokens and performs an
external FCM call; the document store is never written. -/
def send_notification (u : UserDoc) (payload : NotificationSendDTO) (s : DBState) :
    Api Unit × DBState :=
  if u.role ≠ "admin" ∧ u.id ≠ some payload.user_id then (.error 403, s)
  else (.ok (), s)

/-- `POST /reviews` from `main.py`. -/
def post_review (u : UserDoc) (request_id provider_id : Nat) (rating : Int)
    (comment : Option String) (s : DBState) : Api Unit × DBState :=
  let vid := s.next_id
  let doc : ReviewDoc :=
    { oid := vid, id := some vid, request_id := request_id,
      motorist_id := callerId u, provider_id := provider_id, rating := rating,
      comment := comment }
  (.ok (), { s with next_id := vid + 1, review := s.review ++ [doc] })

/-- `POST /disputes` from `main.py`. -/
def raise_dispute (u : UserDoc) (request_id : Nat) (reason : String)
    (details : Option String) (s : DBState) : Api Unit × DBState :=
  let did := s.next_id
  let doc : DisputeDoc :=
    { oid := did, id := some did, request_id := request_id, raised_by := u.role,
      reason := reason, details := details, status := "open" }
  (.ok (), { s with next_id := did + 1, dispute := s.dispute ++ [doc] })

/-- `POST /admin/applications/{app_id}/status` from `main.py`: update the
application, then auto-create a provider profile on approval if none exists. -/
def admin_set_application_status (u : UserDoc) (app_id : Nat) (st : String) (s : DBState) :
    Api Unit × DBState :=
  if u.role = "admin" then
    let apps := updateFirst (fun a => a.id == some app_id)
      (fun a => { a with status := st }) s.providerapplication
    let s1 := { s with providerapplication := apps }
    match apps.find? (fun a => a.id == some app_id) with
    | none => (.ok (), s1)
    | some appDoc =>
      if st = "approved" then
        if (s1.providerprofile.find? (fun p => p.user_id == appDoc.user_id)).isSome then
          (.ok (), s1)
        else
          let pid := s1.next_id
          let doc : ProviderProfileDoc :=
            { oid := pid, id := some pid, user_id := appDoc.user_id,
              status := "offline", service_types := appDoc.service_types,
              lat := none, lng := none }
          let s2 := { s1 with next_id := pid + 1,
                              providerprofile := s1.providerprofile ++ [doc] }
          (.ok (), s2)
      else (.ok (), s1)
  else (.error 403, s)

/-- One invocation of any endpoint of the service, with its caller and
arguments.  Read-only endpoints (`GET /`, `/schema`, `/test`,
`GET /providers/nearby`, `GET /requests`, `POST /notifications/send`,
`GET /admin/overview`, `GET /admin/applications`, `POST /auth/login`) never
write the document store and are grouped under `readOnly`. -/
inductive Op where
  | registerOp (hashPw : String → String) (payload : RegisterDTO)
  | providerApplyOp (u : UserDoc) (payload : ProviderApplyDTO)
  | providerStatusOp (u : UserDoc) (payload : ProviderStatusDTO)
  | createRequestOp (u : UserDoc) (payload : RequestCreateDTO)
  | updateRequestStatusOp (u : UserDoc) (rid : Nat) (st : String)
  | paymentIntentOp (u : UserDoc) (payload : PaymentIntentDTO)
  | paymentsWebhookOp (intent_id : Option Nat) (st : Option String)
  | registerFcmOp (u : UserDoc) (tok platform : String)
  | postReviewOp (u : UserDoc) (request_id provider_id : Nat) (rating : Int)
      (comment : Option String)
  | raiseDisputeOp (u : UserDoc) (request_id : Nat) (reason : String)
      (details : Option String)
  | adminSetApplicationStatusOp (u : UserDoc) (app_id : Nat) (st : String)
  | readOnly

/-- The state transition performed by one endpoint invocation. -/
def applyOp (op : Op) (s : DBState) : DBState :=
  match op with
  | .registerOp hashPw payload => (register hashPw payload s).2
  | .providerApplyOp u payload => (provider_apply u payload s).2
  | .providerStatusOp u payload => (provider_status u payload s).2
  | .createRequestOp u payload => (create_request u payload s).2
  | .updateRequestStatusOp u rid st => (update_request_status u rid st s).2
  | .paymentIntentOp u payload => (create_payment_intent u payload s).2
  | .paymentsWebhookOp iid st => (payments_webhook iid st s).2
  | .registerFcmOp u tok platform => (register_fcm_token u tok platform s).2
  | .postReviewOp u rid pid rating comment => (post_review u rid pid rating comment s).2
  | .raiseDisputeOp u rid reason details => (raise_dispute u rid reason details s).2
  | .adminSetApplicationStatusOp u aid st => (admin_set_application_status u aid st s).2
  | .readOnly => s

/-- A whole run of the service: endpoint invocations applied in sequence. -/
def applyOps (ops : List Op) (s : DBState) : DBState :=
  ops.foldl (fun st op => applyOp op st) s

theorem distance_km_comm (a b : LocationDTO) : distance_km a b = distance_km b a := by
  simp only [distance_km]
  have key : Real.sin ((radians a.lat - radians b.lat) / 2) ^ 2 +
      Real.cos (radians b.lat) * Real.cos (radians a.lat) *
        Real.sin ((radians a.lng - radians b.lng) / 2) ^ 2 =
      Real.sin ((radians b.lat - radians a.lat) / 2) ^ 2 +
      Real.cos (radians a.lat) * Real.cos (radians b.lat) *
        Real.sin ((radians b.lng - radians a.lng) / 2) ^ 2 := by
    rw [show (radians a.lat - radians b.lat) / 2 =
          -((radians b.lat - radians a.lat) / 2) by ring,
        show (radians a.lng - radians b.lng) / 2 =
          -((radians b.lng - radians a.lng) / 2) by ring,
        Real.sin_neg, Real.sin_neg]
    ring
  rw [key]

theorem distance_km_self (a : LocationDTO) : distance_km a a = 0 := by
  simp only [distance_km, sub_self, zero_div, Real.sin_zero, atan2]
  norm_num [Real.arctan_zero]

theorem radians_nonneg {x : ℝ} (h : 0 ≤ x) : 0 ≤ radians x := by
  unfold radians
  positivity

theorem radians_lt_pi {x : ℝ} (h : x < 180) : radians x < π := by
  unfold radians
  rw [div_lt_iff₀ (by norm_num : (0:ℝ) < 180)]
  nlinarith [Real.pi_pos]

/-- On the equator the haversine distance is exactly the Earth radius times
the longitude difference in radians. -/
theorem distance_km_equator {x : ℝ} (h0 : 0 ≤ x) (h1 : x < 180) :
    distance_km ⟨0, 0⟩ ⟨0, x⟩ = 6371 * radians x := by
  have hr0 : 0 ≤ radians x := radians_nonneg h0
  have hrpi : radians x < π := radians_lt_pi h1
  set t := radians x / 2 with ht
  have ht0 : 0 ≤ t := by positivity
  have htlt : t < π / 2 := by rw [ht]; linarith
  have hsin : 0 ≤ Real.sin t :=
    Real.sin_nonneg_of_nonneg_of_le_pi ht0 (by linarith [Real.pi_pos])
  have hcos : 0 < Real.cos t :=
    Real.cos_pos_of_mem_Ioo ⟨by linarith [Real.pi_pos], htlt⟩
  have hz : radians 0 = 0 := by simp [radians]
  simp only [distance_km, hz, sub_self, zero_div, Real.sin_zero, Real.cos_zero, sub_zero,
    zero_sub, one_mul]
  norm_num
  rw [show radians x / 2 = t from rfl]
  rw [Real.sqrt_sq_eq_abs, abs_of_nonneg hsin]
  rw [show (1 : ℝ) - Real.sin t ^ 2 = Real.cos t ^ 2 by
    have := Real.sin_sq_add_cos_sq t; linarith]
  rw [Real.sqrt_sq_eq_abs, abs_of_pos hcos]
  unfold atan2
  rw [if_pos hcos]
  rw [← Real.tan_eq_sin_div_cos, Real.arctan_tan (by linarith [Real.pi_pos]) htlt]
  rw [ht]
  ring

theorem nearbyEntry_eq_some {origin : LocationDTO} {st : Option String} {R : ℝ}
    {p : ProviderProfileDoc} {e : NearbyEntry} :
    nearbyEntry origin st R p = some e ↔
      p.status = "online" ∧ serviceTypeSkip st p.service_types = false ∧
      p.lat = some e.lat ∧ p.lng = some e.lng ∧ e.user_id = p.user_id ∧
      distance_km origin ⟨e.lat, e.lng⟩ ≤ R ∧
      e.distance_km = round2 (distance_km origin ⟨e.lat, e.lng⟩) := by
  obtain ⟨eu, ela, elng, ed⟩ := e
  obtain ⟨poid, pid, puid, pstatus, ptypes, plat, plng⟩ := p
  rcases plat with _ | la <;> rcases plng with _ | ln <;>
    simp only [nearbyEntry] <;>
    split_ifs with h1 h2 h3 <;>
    simp_all [NearbyEntry.mk.injEq] <;>
    try constructor
  all_goals intro h
  all_goals try simp_all
  · obtain ⟨hu, hla, hln, hd⟩ := h
    subst hla; subst hln
    exact hd.symm
  · rintro rfl rfl hR
    intro _
    exact absurd hR (not_le.mpr h3)

theorem mem_providers_nearby {profiles : List ProviderProfileDoc} {lat lng : ℝ}
    {st : Option String} {R : ℝ} {e : NearbyEntry} :
    e ∈ providers_nearby profiles lat lng st R ↔
      ∃ p ∈ profiles, nearbyEntry ⟨lat, lng⟩ st R p = some e := by
  unfold providers_nearby
  rw [(List.perm_insertionSort distLe _).mem_iff, List.mem_filterMap]

theorem providers_nearby_sorted (profiles : List ProviderProfileDoc) (lat lng : ℝ)
    (st : Option String) (R : ℝ) :
    List.Sorted distLe (providers_nearby profiles lat lng st R) :=
  List.sorted_insertionSort distLe _

/-- The code-level skip guard agrees with the spec-level service-type
condition restricted to non-empty service types. -/
theorem serviceTypeSkip_false_iff (st : Option String) (types : List String) :
    serviceTypeSkip st types = false ↔ (∀ t, st = some t → t ≠ "" → t ∈ types) := by
  rcases st with _ | t
  · simp [serviceTypeSkip, truthyS]
  · by_cases ht : t = ""
    · subst ht
      simp [serviceTypeSkip, truthyS]
    · simp [serviceTypeSkip, truthyS, ht, List.contains_iff_exists_mem_beq]

theorem round2_eq_centi {x : ℝ} (h1 : 0.005 ≤ x) (h2 : x < 0.015) : round2 x = 0.01 := by
  unfold round2
  have hr : round (x * 100) = 1 := by
    rw [round_eq, Int.floor_eq_iff]
    constructor
    · push_cast
      linarith
    · push_cast
      linarith
  rw [hr]
  norm_num

/-- C1 (amended): `providers_nearby` returns exactly the online,
service-type-matching (when a non-empty service type is given), located
providers within the unrounded radius, each carrying the rounded distance,
and the result is sorted ascending by the rounded `distance_km` field. -/
theorem C1_nearby_filter_round_sort (profiles : List ProviderProfileDoc) (lat lng : ℝ)
    (st : Option String) (R : ℝ) :
    (∀ e : NearbyEntry, e ∈ providers_nearby profiles lat lng st R ↔
      ∃ p ∈ profiles, p.status = "online" ∧
        (∀ t, st = some t → t ≠ "" → t ∈ p.service_types) ∧
        p.lat = some e.lat ∧ p.lng = some e.lng ∧ e.user_id = p.user_id ∧
        distance_km ⟨lat, lng⟩ ⟨e.lat, e.lng⟩ ≤ R ∧
        e.distance_km = round2 (distance_km ⟨lat, lng⟩ ⟨e.lat, e.lng⟩)) ∧
    List.Sorted (fun a b => a.distance_km ≤ b.distance_km)
      (providers_nearby profiles lat lng st R) := by
  refine ⟨fun e => ?_, providers_nearby_sorted profiles lat lng st R⟩
  rw [mem_providers_nearby]
  constructor
  · rintro ⟨p, hp, he⟩
    rw [nearbyEntry_eq_some] at he
    obtain ⟨h1, h2, rest⟩ := he
    exact ⟨p, hp, h1, (serviceTypeSkip_false_iff st p.service_types).mp h2, rest⟩
  · rintro ⟨p, hp, h1, h2, rest⟩
    exact ⟨p, hp, nearbyEntry_eq_some.mpr
      ⟨h1, (serviceTypeSkip_false_iff st p.service_types).mpr h2, rest⟩⟩

/-- C1 counterexample: with two online providers on the equator at longitudes
9e-5 and 8.9e-5 degrees, both true distances round to 0.01 km, the stable
sort keeps scan order, and the returned list is *not* ascending in the true
(unrounded) great-circle distance: the strictly nearer provider is second. -/
theorem C1_sorted_by_true_distance_counterexample :
    ¬ List.Sorted
        (fun a b : NearbyEntry =>
          distance_km ⟨0, 0⟩ ⟨a.lat, a.lng⟩ ≤ distance_km ⟨0, 0⟩ ⟨b.lat, b.lng⟩)
        (providers_nearby
          [⟨101, some 101, 1, "online", ["tow"], some 0, some 0.00009⟩,
           ⟨102, some 102, 2, "online", ["tow"], some 0, some 0.000089⟩]
          0 0 none 30) := by
  have hd1 : distance_km ⟨0, 0⟩ ⟨0, 0.00009⟩ = 6371 * radians 0.00009 :=
    distance_km_equator (by norm_num) (by norm_num)
  have hd2 : distance_km ⟨0, 0⟩ ⟨0, 0.000089⟩ = 6371 * radians 0.000089 :=
    distance_km_equator (by norm_num) (by norm_num)
  have hb1 : 0.005 ≤ 6371 * radians 0.00009 ∧ 6371 * radians 0.00009 < 0.015 := by
    unfold radians
    constructor
    · nlinarith [Real.pi_gt_d2]
    · nlinarith [Real.pi_lt_d2]
  have hb2 : 0.005 ≤ 6371 * radians 0.000089 ∧ 6371 * radians 0.000089 < 0.015 := by
    unfold radians
    constructor
    · nlinarith [Real.pi_gt_d2]
    · nlinarith [Real.pi_lt_d2]
  have hlt : 6371 * radians 0.000089 < 6371 * radians 0.00009 := by
    unfold radians
    nlinarith [Real.pi_gt_d2]
  have hr1 : round2 (distance_km ⟨0, 0⟩ ⟨0, 0.00009⟩) = 0.01 := by
    rw [hd1]
    exact round2_eq_centi hb1.1 hb1.2
  have hr2 : round2 (distance_km ⟨0, 0⟩ ⟨0, 0.000089⟩) = 0.01 := by
    rw [hd2]
    exact round2_eq_centi hb2.1 hb2.2
  have hf1 : nearbyEntry ⟨0, 0⟩ none 30
      ⟨101, some 101, 1, "online", ["tow"], some 0, some 0.00009⟩ =
      some ⟨1, 0, 0.00009, 0.01⟩ := by
    apply nearbyEntry_eq_some.mpr
    refine ⟨rfl, by simp [serviceTypeSkip, truthyS], rfl, rfl, rfl, ?_, hr1.symm⟩
    rw [hd1]
    linarith [hb1.2]
  have hf2 : nearbyEntry ⟨0, 0⟩ none 30
      ⟨102, some 102, 2, "online", ["tow"], some 0, some 0.000089⟩ =
      some ⟨2, 0, 0.000089, 0.01⟩ := by
    apply nearbyEntry_eq_some.mpr
    refine ⟨rfl, by simp [serviceTypeSkip, truthyS], rfl, rfl, rfl, ?_, hr2.symm⟩
    rw [hd2]
    linarith [hb2.2]
  have hlist : providers_nearby
      [⟨101, some 101, 1, "online", ["tow"], some 0, some 0.00009⟩,
       ⟨102, some 102, 2, "online", ["tow"], some 0, some 0.000089⟩]
      0 0 none 30 =
      [⟨1, 0, 0.00009, 0.01⟩, ⟨2, 0, 0.000089, 0.01⟩] := by
    unfold providers_nearby
    rw [List.filterMap_cons, hf1, List.filterMap_cons, hf2, List.filterMap_nil]
    show List.insertionSort distLe [⟨1, 0, 0.00009, 0.01⟩, ⟨2, 0, 0.000089, 0.01⟩] = _
    simp only [List.insertionSort, List.orderedInsert]
    have hle : distLe ⟨1, 0, 0.00009, 0.01⟩ ⟨2, 0, 0.000089, 0.01⟩ := le_refl (0.01 : ℝ)
    rw [if_pos hle]
  rw [hlist]
  intro hs
  rw [List.sorted_cons] at hs
  have := hs.1 ⟨2, 0, 0.000089, 0.01⟩ (by simp)
  simp only [] at this
  rw [hd1, hd2] at this
  linarith

/-- C8: the Geo Utility's haversine distance is symmetric in its two
coordinates (exactly, in the idealised real model) and is zero from a
coordinate to itself. -/
theorem C8_distance_symmetric_and_self_zero :
    (∀ a b : LocationDTO, distance_km a b = distance_km b a) ∧
    (∀ a : LocationDTO, distance_km a a = 0) :=
  ⟨distance_km_comm, distance_km_self⟩

/-- C3 (code refutation): a request already in the terminal status
`completed` is happily transitioned again; `update_request_status` performs
no predecessor-state validation, returns ok and overwrites the status with
`enroute`. -/
theorem C3_terminal_status_transitions_again :
    (update_request_status ⟨1, some 1, "root", none, none, "admin", none, false, true⟩
        7 "enroute"
        ⟨10, 0, [], [], [⟨7, some 7, 5, "tow", none, 0, 0, some 9, "completed", none⟩],
         [], [], [], [], []⟩).1 = Except.ok () ∧
    (update_request_status ⟨1, some 1, "root", none, none, "admin", none, false, true⟩
        7 "enroute"
        ⟨10, 0, [], [], [⟨7, some 7, 5, "tow", none, 0, 0, some 9, "completed", none⟩],
         [], [], [], [], []⟩).2.servicerequest =
      [⟨7, some 7, 5, "tow", none, 0, 0, some 9, "enroute", some 0⟩] := by
  constructor <;> rfl

theorem updateFirst_of_all_false {α : Type} {p : α → Bool} {f : α → α} :
    ∀ {l : List α}, (∀ x ∈ l, p x = false) → updateFirst p f l = l
  | [], _ => rfl
  | x :: xs, h => by
    unfold updateFirst
    rw [h x (List.mem_cons_self x xs), updateFirst_of_all_false (fun y hy => h y (List.mem_cons_of_mem x hy))]
    simp

/-- Evaluation of `update_request_status` once the target status is valid and
the lookup has succeeded. -/
theorem update_request_status_eval {u : UserDoc} {rid : Nat} {st : String}
    {s : DBState} {req : RequestDoc}
    (hv : validTarget st = true) (hfound : findReq s rid = some req) :
    update_request_status u rid st s =
      if u.role = "provider" ∧ ¬ownsAs req.provider_id u then (.error 403, s)
      else if u.role = "motorist" ∧ ¬ownsAs (some req.motorist_id) u then (.error 403, s)
      else (.ok (), { s with
                      servicerequest := updateFirst (fun d => d.id == some rid)
                        (fun d => { d with status := st, updated_at := some s.time })
                        s.servicerequest }) := by
  unfold update_request_status
  rw [if_pos hv, hfound]

theorem ownsAs_iff {v : Option Nat} {u : UserDoc} (hid : u.id = some u.oid) :
    ownsAs v u = true ↔ v = some u.oid := by
  simp [ownsAs, hid]

/-- C5: for a found request and a valid target status, an ownership
violation by a `provider` or `motorist` caller fails with HTTP 403
(Forbidden) and leaves the state untouched; a `provider` caller succeeds iff
the request's `provider_id` is the caller's id, a `motorist` caller iff
`motorist_id` is the caller's id, and an `admin` caller always succeeds. -/
theorem C5_setStatus_ownership (u : UserDoc) (rid : Nat) (st : String)
    (s : DBState) (req : RequestDoc)
    (hv : validTarget st = true) (hfound : findReq s rid = some req)
    (hid : u.id = some u.oid) :
    (u.role = "provider" → req.provider_id ≠ some u.oid →
       update_request_status u rid st s = (Except.error 403, s)) ∧
    (u.role = "motorist" → req.motorist_id ≠ u.oid →
       update_request_status u rid st s = (Except.error 403, s)) ∧
    (u.role = "provider" →
       ((update_request_status u rid st s).1 = Except.ok () ↔
         req.provider_id = some u.oid)) ∧
    (u.role = "motorist" →
       ((update_request_status u rid st s).1 = Except.ok () ↔
         req.motorist_id = u.oid)) ∧
    (u.role = "admin" → (update_request_status u rid st s).1 = Except.ok ()) ∧
    ((update_request_status u rid st s).1 ≠ Except.ok () →
       (update_request_status u rid st s).2 = s) := by
  rw [update_request_status_eval hv hfound]
  refine ⟨?_, ?_, ?_, ?_, ?_, ?_⟩
  · intro hrole hne
    have hw : ¬(ownsAs req.provider_id u = true) :=
      fun h => hne ((ownsAs_iff hid).mp h)
    rw [if_pos ⟨hrole, hw⟩]
  · intro hrole hne
    have hw : ¬(ownsAs (some req.motorist_id) u = true) :=
      fun h => hne (by simpa using (ownsAs_iff hid).mp h)
    rw [if_neg (by simp [hrole]), if_pos ⟨hrole, hw⟩]
  · intro hrole
    by_cases hw : ownsAs req.provider_id u = true
    · rw [if_neg (by simp [hw]), if_neg (by simp [hrole])]
      simp [(ownsAs_iff hid).mp hw]
    · rw [if_pos ⟨hrole, by simp [hw]⟩]
      have hne : ¬(req.provider_id = some u.oid) := fun h => hw ((ownsAs_iff hid).mpr h)
      simp [hne]
  · intro hrole
    by_cases hw : ownsAs (some req.motorist_id) u = true
    · rw [if_neg (by simp [hrole]), if_neg (by simp [hw])]
      have heq : req.motorist_id = u.oid := by
        have := (ownsAs_iff hid).mp hw
        simpa using this
      simp [heq]
    · rw [if_neg (by simp [hrole]), if_pos ⟨hrole, by simp [hw]⟩]
      have hne : ¬(req.motorist_id = u.oid) :=
        fun h => hw ((ownsAs_iff hid).mpr (by simp [h]))
      simp [hne]
  · intro hrole
    rw [if_neg (by simp [hrole]), if_neg (by simp [hrole])]
  · split_ifs with h1 h2
    · intro _
      rfl
    · intro _
      rfl
    · intro h
      exact absurd rfl h

/-- C5 witness: a provider whose id (4) differs from the request's
`provider_id` (9) gets exactly HTTP 403 and an unchanged state. -/
theorem C5_setStatus_ownership_witness :
    update_request_status ⟨4, some 4, "pat", none, none, "provider", none, false, true⟩
        7 "completed"
        ⟨10, 0, [], [], [⟨7, some 7, 5, "tow", none, 0, 0, some 9, "assigned", none⟩],
         [], [], [], [], []⟩ =
      (Except.error 403,
       ⟨10, 0, [], [], [⟨7, some 7, 5, "tow", none, 0, 0, some 9, "assigned", none⟩],
        [], [], [], [], []⟩) :=
  (C5_setStatus_ownership
    ⟨4, some 4, "pat", none, none, "provider", none, false, true⟩ 7 "completed"
    ⟨10, 0, [], [], [⟨7, some 7, 5, "tow", none, 0, 0, some 9, "assigned", none⟩],
     [], [], [], [], []⟩
    ⟨7, some 7, 5, "tow", none, 0, 0, some 9, "assigned", none⟩
    (by decide) rfl rfl).1 rfl (by simp)

/-- C10: a request found only through the raw `_id` fallback is reported
transitioned (`ok`) while the status write, filtering on the mirrored `id`
field only, matches no document: status and `updated_at` stay unchanged. -/
theorem C10_fallback_lookup_write_mismatch (u : UserDoc) (rid : Nat) (st : String)
    (s : DBState) (d : RequestDoc)
    (hrole : u.role = "admin") (hv : validTarget st = true)
    (hnone : ∀ x ∈ s.servicerequest, x.id ≠ some rid)
    (hd : d ∈ s.servicerequest) (hoid : d.oid = rid) :
    (update_request_status u rid st s).1 = Except.ok () ∧
    (update_request_status u rid st s).2.servicerequest = s.servicerequest := by
  have hfind1 : s.servicerequest.find? (fun x => x.id == some rid) = none := by
    rw [List.find?_eq_none]
    intro x hx
    simpa using hnone x hx
  have hfind2 : (s.servicerequest.find? (fun x => x.oid == rid)).isSome := by
    rw [List.find?_isSome]
    exact ⟨d, hd, by simp [hoid]⟩
  obtain ⟨req, hreq⟩ := Option.isSome_iff_exists.mp hfind2
  have hfound : findReq s rid = some req := by
    unfold findReq
    rw [hfind1]
    exact hreq
  rw [update_request_status_eval hv hfound]
  rw [if_neg (by simp [hrole]), if_neg (by simp [hrole])]
  refine ⟨rfl, ?_⟩
  show updateFirst _ _ s.servicerequest = s.servicerequest
  apply updateFirst_of_all_false
  intro x hx
  simpa using hnone x hx

/-- C10 witness: a concrete document with no mirrored `id`, reachable only by
`_id`, survives the "successful" transition unchanged. -/
theorem C10_fallback_lookup_write_mismatch_witness :
    (update_request_status ⟨1, some 1, "root", none, none, "admin", none, false, true⟩
        3 "cancelled"
        ⟨10, 0, [], [], [⟨3, none, 5, "tow", none, 0, 0, none, "pending", none⟩],
         [], [], [], [], []⟩).1 = Except.ok () ∧
    (update_request_status ⟨1, some 1, "root", none, none, "admin", none, false, true⟩
        3 "cancelled"
        ⟨10, 0, [], [], [⟨3, none, 5, "tow", none, 0, 0, none, "pending", none⟩],
         [], [], [], [], []⟩).2.servicerequest =
      [⟨3, none, 5, "tow", none, 0, 0, none, "pending", none⟩] :=
  C10_fallback_lookup_write_mismatch
    ⟨1, some 1, "root", none, none, "admin", none, false, true⟩ 3 "cancelled"
    ⟨10, 0, [], [], [⟨3, none, 5, "tow", none, 0, 0, none, "pending", none⟩],
     [], [], [], [], []⟩
    ⟨3, none, 5, "tow", none, 0, 0, none, "pending", none⟩
    rfl (by decide) (by simp) (by simp) rfl

theorem round2_zero : round2 0 = 0 := by
  simp [round2]

/-- C4: when the nearby query returns no provider, `create_request` succeeds,
returns a null match, and the stored request is exactly the freshly inserted
`pending` document with no `provider_id`. -/
theorem C4_empty_pool_stays_pending (u : UserDoc) (payload : RequestCreateDTO)
    (s : DBState) (hrole : u.role = "motorist")
    (hnb : providers_nearby s.providerprofile payload.pickup_lat payload.pickup_lng
      (some payload.service_type) 30 = []) :
    (create_request u payload s).1 = Except.ok (s.next_id, none) ∧
    (create_request u payload s).2.servicerequest =
      s.servicerequest ++
        [⟨s.next_id, some s.next_id, callerId u, payload.service_type,
          payload.description, payload.pickup_lat, payload.pickup_lng,
          none, "pending", none⟩] := by
  have he : create_request u payload s =
      (Except.ok (s.next_id, none),
       { s with next_id := s.next_id + 1,
                servicerequest := s.servicerequest ++
                  [⟨s.next_id, some s.next_id, callerId u, payload.service_type,
                    payload.description, payload.pickup_lat, payload.pickup_lng,
                    none, "pending", none⟩] }) := by
    unfold create_request
    rw [if_pos hrole]
    simp only [create_request_insert, create_request_read, create_request_commit, hnb]
  rw [he]
  exact ⟨rfl, rfl⟩

/-- C4 witness: no profiles at all, so the request stays pending. -/
theorem C4_empty_pool_stays_pending_witness :
    (create_request ⟨2, some 2, "mo", none, none, "motorist", none, false, true⟩
        ⟨"tow", none, 0, 0⟩ ⟨5, 0, [], [], [], [], [], [], [], []⟩).1 =
      Except.ok (5, none) ∧
    (create_request ⟨2, some 2, "mo", none, none, "motorist", none, false, true⟩
        ⟨"tow", none, 0, 0⟩ ⟨5, 0, [], [], [], [], [], [], [], []⟩).2.servicerequest =
      [⟨5, some 5, 2, "tow", none, 0, 0, none, "pending", none⟩] :=
  C4_empty_pool_stays_pending
    ⟨2, some 2, "mo", none, none, "motorist", none, false, true⟩
    ⟨"tow", none, 0, 0⟩ ⟨5, 0, [], [], [], [], [], [], [], []⟩ rfl rfl

theorem updateFirst_append_last {α : Type} {p : α → Bool} {f : α → α} {l : List α}
    {x : α} (hl : ∀ y ∈ l, p y = false) (hx : p x = true) :
    updateFirst p f (l ++ [x]) = l ++ [f x] := by
  induction l with
  | nil =>
    simp [updateFirst, hx]
  | cons a as ih =>
    have ha := hl a (List.mem_cons_self a as)
    simp [updateFirst, ha, ih (fun y hy => hl y (List.mem_cons_of_mem a hy))]

theorem updateFirst_busy_of_unique {l : List ProviderProfileDoc} {uid : Nat}
    (huniq : l.Pairwise (fun p q => p.user_id ≠ q.user_id)) :
    ∀ p ∈ updateFirst (fun q => q.user_id == uid)
        (fun q => { q with status := "busy" }) l,
      p.user_id = uid → p.status = "busy" := by
  induction l with
  | nil =>
    simp [updateFirst]
  | cons a as ih =>
    rw [List.pairwise_cons] at huniq
    by_cases ha : (a.user_id == uid) = true
    · simp only [updateFirst, ha, if_true]
      intro p hp hpuid
      rcases List.mem_cons.mp hp with h | h
      · subst h
        rfl
      · exact absurd (((beq_iff_eq.mp ha).trans hpuid.symm)) (huniq.1 p h)
    · simp only [updateFirst, ha, if_false]
      intro p hp hpuid
      rcases List.mem_cons.mp hp with h | h
      · subst h
        exact absurd hpuid (by simpa using ha)
      · exact ih huniq.2 p h hpuid

/-- C2: with a motorist caller, well-formed fresh ids, unique profile owners
and a non-empty nearby read, `create_request` assigns the first (nearest)
entry: the created request document carries `provider_id` of the chosen
provider and status `assigned`, every profile of the chosen provider is
`busy`, and the returned ETA is `max 3 ⌊distance_km / 0.6⌋ ≥ 3` minutes. -/
theorem C2_assigns_nearest (u : UserDoc) (payload : RequestCreateDTO) (s : DBState)
    (e : NearbyEntry) (rest : List NearbyEntry)
    (hrole : u.role = "motorist")
    (hwf : ∀ d ∈ s.servicerequest, ∀ v, d.id = some v → v < s.next_id)
    (huniq : s.providerprofile.Pairwise (fun p q => p.user_id ≠ q.user_id))
    (hnb : providers_nearby s.providerprofile payload.pickup_lat payload.pickup_lng
      (some payload.service_type) 30 = e :: rest) :
    (create_request u payload s).1 =
      Except.ok (s.next_id, some ⟨e.user_id, max 3 ⌊e.distance_km / 0.6⌋⟩) ∧
    (3 : ℤ) ≤ max 3 ⌊e.distance_km / 0.6⌋ ∧
    (∃ d ∈ (create_request u payload s).2.servicerequest,
       d.oid = s.next_id ∧ d.provider_id = some e.user_id ∧ d.status = "assigned") ∧
    (∀ p ∈ (create_request u payload s).2.providerprofile,
       p.user_id = e.user_id → p.status = "busy") := by
  have he : create_request u payload s =
      (Except.ok (s.next_id, some ⟨e.user_id, max 3 ⌊e.distance_km / 0.6⌋⟩),
       { s with next_id := s.next_id + 1,
                servicerequest := updateFirst (fun d => d.id == some s.next_id)
                  (fun d => { d with provider_id := some e.user_id, status := "assigned" })
                  (s.servicerequest ++
                    [⟨s.next_id, some s.next_id, callerId u, payload.service_type,
                      payload.description, payload.pickup_lat, payload.pickup_lng,
                      none, "pending", none⟩]),
                providerprofile := updateFirst (fun p => p.user_id == e.user_id)
                  (fun p => { p with status := "busy" }) s.providerprofile }) := by
    unfold create_request
    rw [if_pos hrole]
    simp only [create_request_insert, create_request_read, create_request_commit, hnb]
  have hupd : updateFirst (fun d => d.id == some s.next_id)
      (fun d => { d with provider_id := some e.user_id, status := "assigned" })
      (s.servicerequest ++
        [⟨s.next_id, some s.next_id, callerId u, payload.service_type,
          payload.description, payload.pickup_lat, payload.pickup_lng,
          none, "pending", none⟩]) =
      s.servicerequest ++
        [⟨s.next_id, some s.next_id, callerId u, payload.service_type,
          payload.description, payload.pickup_lat, payload.pickup_lng,
          some e.user_id, "assigned", none⟩] := by
    rw [updateFirst_append_last]
    · intro y hy
      rcases hy' : y.id with _ | v
      · simp [hy']
      · have := hwf y hy v hy'
        simp [hy']
        omega
    · simp
  rw [he]
  refine ⟨rfl, le_max_left _ _, ?_, ?_⟩
  · refine ⟨⟨s.next_id, some s.next_id, callerId u, payload.service_type,
      payload.description, payload.pickup_lat, payload.pickup_lng,
      some e.user_id, "assigned", none⟩, ?_, rfl, rfl, rfl⟩
    show _ ∈ updateFirst _ _ _
    rw [hupd]
    exact List.mem_append_right _ (List.mem_singleton_self _)
  · intro p hp hpuid
    exact updateFirst_busy_of_unique huniq p hp hpuid

/-- A single online `tow` provider standing exactly at the origin is the
whole nearby pool, at distance 0. -/
theorem nearby_single_at_origin :
    providers_nearby [⟨0, some 0, 10, "online", ["tow"], some 0, some 0⟩] 0 0
      (some "tow") 30 = [⟨10, 0, 0, 0⟩] := by
  have hz : distance_km ⟨0, 0⟩ ⟨0, 0⟩ = 0 := distance_km_self _
  have hf : nearbyEntry ⟨0, 0⟩ (some "tow") 30
      ⟨0, some 0, 10, "online", ["tow"], some 0, some 0⟩ = some ⟨10, 0, 0, 0⟩ :=
    nearbyEntry_eq_some.mpr ⟨rfl, by simp [serviceTypeSkip, truthyS], rfl, rfl, rfl,
      show distance_km ⟨0, 0⟩ ⟨0, 0⟩ ≤ 30 by rw [hz]; norm_num,
      show (0 : ℝ) = round2 (distance_km ⟨0, 0⟩ ⟨0, 0⟩) by rw [hz, round2_zero]⟩
  unfold providers_nearby
  rw [List.filterMap_cons, hf, List.filterMap_nil]
  simp [List.insertionSort, List.orderedInsert]

/-- C2 witness: the spec scenario with the provider standing at the pickup
point; distance 0, ETA `max 3 ⌊0/0.6⌋ = 3`. -/
theorem C2_assigns_nearest_witness :
    (create_request ⟨2, some 2, "mo", none, none, "motorist", none, false, true⟩
        ⟨"tow", none, 0, 0⟩
        ⟨20, 0, [], [⟨0, some 0, 10, "online", ["tow"], some 0, some 0⟩],
         [], [], [], [], [], []⟩).1 =
      Except.ok (20, some ⟨10, max 3 ⌊(0 : ℝ) / 0.6⌋⟩) ∧
    (3 : ℤ) ≤ max 3 ⌊(0 : ℝ) / 0.6⌋ ∧
    (∃ d ∈ (create_request ⟨2, some 2, "mo", none, none, "motorist", none, false, true⟩
        ⟨"tow", none, 0, 0⟩
        ⟨20, 0, [], [⟨0, some 0, 10, "online", ["tow"], some 0, some 0⟩],
         [], [], [], [], [], []⟩).2.servicerequest,
       d.oid = 20 ∧ d.provider_id = some 10 ∧ d.status = "assigned") ∧
    (∀ p ∈ (create_request ⟨2, some 2, "mo", none, none, "motorist", none, false, true⟩
        ⟨"tow", none, 0, 0⟩
        ⟨20, 0, [], [⟨0, some 0, 10, "online", ["tow"], some 0, some 0⟩],
         [], [], [], [], [], []⟩).2.providerprofile,
       p.user_id = 10 → p.status = "busy") :=
  C2_assigns_nearest
    ⟨2, some 2, "mo", none, none, "motorist", none, false, true⟩
    ⟨"tow", none, 0, 0⟩
    ⟨20, 0, [], [⟨0, some 0, 10, "online", ["tow"], some 0, some 0⟩],
     [], [], [], [], [], []⟩
    ⟨10, 0, 0, 0⟩ [] rfl (by simp) (by simp) nearby_single_at_origin

/-- C6 (code refutation): two concurrent `create_request` calls interleaved
at the read/commit boundary (insert A, read A, insert B, read B, commit A,
commit B — each call's own program order is preserved, and each MongoDB
operation is individually atomic) both observe the sole online provider and
both commit: the final state holds two distinct requests, both `assigned`
to provider 10.  The unguarded read-then-write of the source has no
conditional update, so nothing stops the double booking. -/
theorem C6_double_assignment_under_interleaving :
    (((create_request_commit 21
        (create_request_read ⟨"tow", none, 0, 0⟩
          (create_request_insert ⟨3, some 3, "bob", none, none, "motorist", none, false, true⟩
            ⟨"tow", none, 0, 0⟩
            (create_request_insert ⟨2, some 2, "ann", none, none, "motorist", none, false, true⟩
              ⟨"tow", none, 0, 0⟩
              ⟨20, 0, [], [⟨0, some 0, 10, "online", ["tow"], some 0, some 0⟩],
               [], [], [], [], [], []⟩).2).2)
        (create_request_commit 20
          (create_request_read ⟨"tow", none, 0, 0⟩
            (create_request_insert ⟨2, some 2, "ann", none, none, "motorist", none, false, true⟩
              ⟨"tow", none, 0, 0⟩
              ⟨20, 0, [], [⟨0, some 0, 10, "online", ["tow"], some 0, some 0⟩],
               [], [], [], [], [], []⟩).2)
          (create_request_insert ⟨3, some 3, "bob", none, none, "motorist", none, false, true⟩
            ⟨"tow", none, 0, 0⟩
            (create_request_insert ⟨2, some 2, "ann", none, none, "motorist", none, false, true⟩
              ⟨"tow", none, 0, 0⟩
              ⟨20, 0, [], [⟨0, some 0, 10, "online", ["tow"], some 0, some 0⟩],
               [], [], [], [], [], []⟩).2).2).2).2).servicerequest.map
      (fun d => (d.oid, d.provider_id, d.status))) =
      [(20, some 10, "assigned"), (21, some 10, "assigned")] := by
  have hread : ∀ s : DBState, s.providerprofile =
      [⟨0, some 0, 10, "online", ["tow"], some 0, some 0⟩] →
      create_request_read ⟨"tow", none, 0, 0⟩ s = [⟨10, 0, 0, 0⟩] := by
    intro s hs
    unfold create_request_read
    rw [hs]
    exact nearby_single_at_origin
  rw [hread _ rfl, hread _ rfl]
  rfl

theorem updateFirst_provider_id_isSome (p : RequestDoc → Bool) (f : RequestDoc → RequestDoc)
    (hoid : ∀ x, (f x).oid = x.oid)
    (hpi : ∀ x, (f x).provider_id = x.provider_id ∨ (f x).provider_id.isSome) :
    ∀ {l : List RequestDoc} {r : RequestDoc}, r ∈ l → r.provider_id.isSome →
      ∃ r' ∈ updateFirst p f l, r'.oid = r.oid ∧ r'.provider_id.isSome := by
  intro l
  induction l with
  | nil =>
    intro r h
    cases h
  | cons a as ih =>
    intro r hr hsome
    by_cases hp : p a = true
    · simp only [updateFirst, hp, if_true]
      rcases List.mem_cons.mp hr with h | h
      · subst h
        refine ⟨f r, List.mem_cons_self _ _, hoid r, ?_⟩
        rcases hpi r with h' | h'
        · rw [h']
          exact hsome
        · exact h'
      · exact ⟨r, List.mem_cons_of_mem _ h, rfl, hsome⟩
    · simp only [updateFirst, hp, if_false]
      rcases List.mem_cons.mp hr with h | h
      · subst h
        exact ⟨r, List.mem_cons_self _ _, rfl, hsome⟩
      · obtain ⟨r', hr', ho, hs⟩ := ih h hsome
        exact ⟨r', List.mem_cons_of_mem _ hr', ho, hs⟩

theorem register_frame (hashPw : String → String) (payload : RegisterDTO) (s : DBState) :
    (register hashPw payload s).2.servicerequest = s.servicerequest := by
  unfold register
  split_ifs <;> rfl

theorem provider_apply_frame (u : UserDoc) (payload : ProviderApplyDTO) (s : DBState) :
    (provider_apply u payload s).2.servicerequest = s.servicerequest := by
  unfold provider_apply
  split_ifs <;> rfl

theorem provider_status_frame (u : UserDoc) (payload : ProviderStatusDTO) (s : DBState) :
    (provider_status u payload s).2.servicerequest = s.servicerequest := by
  unfold provider_status
  dsimp only
  split_ifs <;> rfl

theorem create_payment_intent_frame (u : UserDoc) (payload : PaymentIntentDTO) (s : DBState) :
    (create_payment_intent u payload s).2.servicerequest = s.servicerequest := rfl

theorem payments_webhook_frame (iid : Option Nat) (st : Option String) (s : DBState) :
    (payments_webhook iid st s).2.servicerequest = s.servicerequest := by
  unfold payments_webhook
  cases iid <;> rfl

theorem register_fcm_token_frame (u : UserDoc) (tok platform : String) (s : DBState) :
    (register_fcm_token u tok platform s).2.servicerequest = s.servicerequest := rfl

theorem send_notification_frame (u : UserDoc) (payload : NotificationSendDTO) (s : DBState) :
    (send_notification u payload s).2.servicerequest = s.servicerequest := by
  unfold send_notification
  split_ifs <;> rfl

theorem post_review_frame (u : UserDoc) (rid pid : Nat) (rating : Int)
    (comment : Option String) (s : DBState) :
    (post_review u rid pid rating comment s).2.servicerequest = s.servicerequest := rfl

theorem raise_dispute_frame (u : UserDoc) (rid : Nat) (reason : String)
    (details : Option String) (s : DBState) :
    (raise_dispute u rid reason details s).2.servicerequest = s.servicerequest := rfl

theorem admin_set_application_status_frame (u : UserDoc) (aid : Nat) (st : String)
    (s : DBState) :
    (admin_set_application_status u aid st s).2.servicerequest = s.servicerequest := by
  unfold admin_set_application_status
  by_cases h1 : u.role = "admin"
  · rw [if_pos h1]
    dsimp only
    split
    · rfl
    · split_ifs <;> rfl
  · rw [if_neg h1]

theorem update_request_status_provider_id (u : UserDoc) (rid : Nat) (st : String)
    (s : DBState) (r : RequestDoc) (hr : r ∈ s.servicerequest)
    (hsome : r.provider_id.isSome) :
    ∃ r' ∈ (update_request_status u rid st s).2.servicerequest,
      r'.oid = r.oid ∧ r'.provider_id.isSome := by
  unfold update_request_status
  by_cases hv : validTarget st = true
  · rw [if_pos hv]
    cases hfr : findReq s rid with
    | none =>
      exact ⟨r, hr, rfl, hsome⟩
    | some req =>
      dsimp only
      split_ifs with h1 h2
      · exact ⟨r, hr, rfl, hsome⟩
      · exact ⟨r, hr, rfl, hsome⟩
      · exact updateFirst_provider_id_isSome (fun d => d.id == some rid)
          (fun d => { d with status := st, updated_at := some s.time })
          (fun x => rfl) (fun x => Or.inl rfl) hr hsome
  · rw [if_neg hv]
    exact ⟨r, hr, rfl, hsome⟩

theorem create_request_provider_id (u : UserDoc) (payload : RequestCreateDTO)
    (s : DBState) (r : RequestDoc) (hr : r ∈ s.servicerequest)
    (hsome : r.provider_id.isSome) :
    ∃ r' ∈ (create_request u payload s).2.servicerequest,
      r'.oid = r.oid ∧ r'.provider_id.isSome := by
  unfold create_request
  by_cases hrole : u.role = "motorist"
  · rw [if_pos hrole]
    simp only [create_request_insert, create_request_read, create_request_commit]
    cases hnb : providers_nearby s.providerprofile payload.pickup_lat payload.pickup_lng
        (some payload.service_type) 30 with
    | nil =>
      exact ⟨r, List.mem_append_left _ hr, rfl, hsome⟩
    | cons e rest =>
      exact updateFirst_provider_id_isSome (fun d => d.id == some s.next_id)
        (fun d => { d with provider_id := some e.user_id, status := "assigned" })
        (fun x => rfl) (fun x => Or.inr rfl) (List.mem_append_left _ hr) hsome
  · rw [if_neg hrole]
    exact ⟨r, hr, rfl, hsome⟩

theorem applyOp_provider_id (op : Op) (s : DBState) (r : RequestDoc)
    (hr : r ∈ s.servicerequest) (hsome : r.provider_id.isSome) :
    ∃ r' ∈ (applyOp op s).servicerequest, r'.oid = r.oid ∧ r'.provider_id.isSome := by
  cases op with
  | registerOp hashPw payload =>
    unfold applyOp
    rw [register_frame]
    exact ⟨r, hr, rfl, hsome⟩
  | providerApplyOp u payload =>
    unfold applyOp
    rw [provider_apply_frame]
    exact ⟨r, hr, rfl, hsome⟩
  | providerStatusOp u payload =>
    unfold applyOp
    rw [provider_status_frame]
    exact ⟨r, hr, rfl, hsome⟩
  | createRequestOp u payload =>
    exact create_request_provider_id u payload s r hr hsome
  | updateRequestStatusOp u rid st =>
    exact update_request_status_provider_id u rid st s r hr hsome
  | paymentIntentOp u payload =>
    unfold applyOp
    rw [create_payment_intent_frame]
    exact ⟨r, hr, rfl, hsome⟩
  | paymentsWebhookOp iid st =>
    unfold applyOp
    rw [payments_webhook_frame]
    exact ⟨r, hr, rfl, hsome⟩
  | registerFcmOp u tok platform =>
    unfold applyOp
    rw [register_fcm_token_frame]
    exact ⟨r, hr, rfl, hsome⟩
  | postReviewOp u rid pid rating comment =>
    unfold applyOp
    rw [post_review_frame]
    exact ⟨r, hr, rfl, hsome⟩
  | raiseDisputeOp u rid reason details =>
    unfold applyOp
    rw [raise_dispute_frame]
    exact ⟨r, hr, rfl, hsome⟩
  | adminSetApplicationStatusOp u aid st =>
    unfold applyOp
    rw [admin_set_application_status_frame]
    exact ⟨r, hr, rfl, hsome⟩
  | readOnly =>
    exact ⟨r, hr, rfl, hsome⟩

/-- C7: along any sequence of endpoint invocations, a request whose
`provider_id` is set keeps a set `provider_id` forever; no operation clears
it back to null. -/
theorem C7_provider_id_never_cleared (ops : List Op) (s : DBState) (r : RequestDoc)
    (hr : r ∈ s.servicerequest) (hsome : r.provider_id.isSome) :
    ∃ r' ∈ (applyOps ops s).servicerequest, r'.oid = r.oid ∧ r'.provider_id.isSome := by
  induction ops generalizing s r with
  | nil => exact ⟨r, hr, rfl, hsome⟩
  | cons op ops ih =>
    obtain ⟨r', hr', hoid, hsome'⟩ := applyOp_provider_id op s r hr hsome
    obtain ⟨r'', hr'', hoid', hsome''⟩ := ih (applyOp op s) r' hr' hsome'
    exact ⟨r'', hr'', hoid'.trans hoid, hsome''⟩

/-- C7 witness: an assigned request survives a transition to `completed`
with its `provider_id` still set. -/
theorem C7_provider_id_never_cleared_witness :
    ∃ r' ∈ (applyOps
        [Op.updateRequestStatusOp ⟨1, some 1, "root", none, none, "admin", none, false, true⟩
           7 "completed"]
        ⟨10, 0, [], [], [⟨7, some 7, 5, "tow", none, 0, 0, some 9, "assigned", none⟩],
         [], [], [], [], []⟩).servicerequest,
      r'.oid = 7 ∧ r'.provider_id.isSome :=
  C7_provider_id_never_cleared
    [Op.updateRequestStatusOp ⟨1, some 1, "root", none, none, "admin", none, false, true⟩
       7 "completed"]
    ⟨10, 0, [], [], [⟨7, some 7, 5, "tow", none, 0, 0, some 9, "assigned", none⟩],
     [], [], [], [], []⟩
    ⟨7, some 7, 5, "tow", none, 0, 0, some 9, "assigned", none⟩
    (List.mem_singleton_self _) rfl

theorem truthyS_true_iff {x : Option String} :
    truthyS x = true ↔ ∃ t, x = some t ∧ t ≠ "" := by
  cases x <;> simp [truthyS]

theorem truthyS_false_iff {x : Option String} :
    truthyS x = false ↔ x = none ∨ x = some "" := by
  cases x <;> simp [truthyS]


theorem login_eval_no_query {verifyPw : String → String → Bool} {payload : LoginDTO}
    {s : DBState} (hq : (truthyS payload.email || truthyS payload.phone) = false) :
    login verifyPw payload s = Except.error 401 := by
  unfold login
  rw [if_neg (by rw [hq]; simp)]

theorem login_eval_no_match {verifyPw : String → String → Bool} {payload : LoginDTO}
    {s : DBState} (hq : (truthyS payload.email || truthyS payload.phone) = true)
    (hfind : s.user.find? (loginMatches payload) = none) :
    login verifyPw payload s = Except.error 401 := by
  unfold login
  rw [if_pos hq, hfind]

theorem login_eval_skip {verifyPw : String → String → Bool} {payload : LoginDTO}
    {s : DBState} {u : UserDoc}
    (hq : (truthyS payload.email || truthyS payload.phone) = true)
    (hfind : s.user.find? (loginMatches payload) = some u)
    (hcred : (truthyS payload.password && truthyS u.password_hash) = false) :
    login verifyPw payload s = Except.ok (callerId u, u.role) := by
  unfold login
  rw [if_pos hq, hfind]
  dsimp only
  rw [if_neg (by rw [hcred]; simp)]

theorem login_eval_verify {verifyPw : String → String → Bool} {payload : LoginDTO}
    {s : DBState} {u : UserDoc}
    (hq : (truthyS payload.email || truthyS payload.phone) = true)
    (hfind : s.user.find? (loginMatches payload) = some u)
    (hcred : (truthyS payload.password && truthyS u.password_hash) = true) :
    login verifyPw payload s =
      if verifyPw (payload.password.getD "") (u.password_hash.getD "") then
        Except.ok (callerId u, u.role)
      else Except.error 401 := by
  unfold login
  rw [if_pos hq, hfind]
  dsimp only
  rw [if_pos hcred]

theorem bool_eq_false {b : Bool} (h : ¬(b = true)) : b = false := by
  cases b
  · rfl
  · exact absurd rfl h

theorem bool_or_true {a b : Bool} : (a || b) = true ↔ a = true ∨ b = true := by
  cases a <;> cases b <;> simp

theorem bool_and_true {a b : Bool} : (a && b) = true ↔ a = true ∧ b = true := by
  cases a <;> cases b <;> simp

/-- C9 (amended): with Python truthiness — empty-string fields are treated as
absent — `login` returns 401 exactly when no non-empty query field is given,
or no stored user matches the query, or a non-empty submitted password and a
non-empty stored hash are both present and verification fails; whenever the
password or the stored hash is falsy, the matched user receives a bearer
token with no verification at all (uniformly in the verifier). -/
theorem C9_login_401_characterization (verifyPw : String → String → Bool)
    (payload : LoginDTO) (s : DBState) :
    (login verifyPw payload s = Except.error 401 ↔
      (truthyS payload.email = false ∧ truthyS payload.phone = false) ∨
      ((truthyS payload.email = true ∨ truthyS payload.phone = true) ∧
        s.user.find? (loginMatches payload) = none) ∨
      (∃ u pw h, s.user.find? (loginMatches payload) = some u ∧
        payload.password = some pw ∧ pw ≠ "" ∧
        u.password_hash = some h ∧ h ≠ "" ∧ verifyPw pw h = false)) ∧
    (∀ u, s.user.find? (loginMatches payload) = some u →
      (truthyS payload.email = true ∨ truthyS payload.phone = true) →
      (truthyS payload.password = false ∨ truthyS u.password_hash = false) →
      login verifyPw payload s = Except.ok (callerId u, u.role)) := by
  constructor
  · constructor
    · intro h401
      by_cases hq : (truthyS payload.email || truthyS payload.phone) = true
      · cases hfind : s.user.find? (loginMatches payload) with
        | none => exact Or.inr (Or.inl ⟨bool_or_true.mp hq, rfl⟩)
        | some u =>
          by_cases hcred : (truthyS payload.password && truthyS u.password_hash) = true
          · obtain ⟨hpw, hhash⟩ := bool_and_true.mp hcred
            obtain ⟨pw, hpweq, hpwne⟩ := truthyS_true_iff.mp hpw
            obtain ⟨hs, hseq, hsne⟩ := truthyS_true_iff.mp hhash
            by_cases hver : verifyPw (payload.password.getD "") (u.password_hash.getD "") = true
            · rw [login_eval_verify hq hfind hcred, if_pos hver] at h401
              cases h401
            · refine Or.inr (Or.inr ⟨u, pw, hs, rfl, hpweq, hpwne, hseq, hsne, ?_⟩)
              rw [hpweq, hseq] at hver
              simpa using bool_eq_false hver
          · rw [login_eval_skip hq hfind (bool_eq_false hcred)] at h401
            cases h401
      · have hq' := bool_eq_false hq
        refine Or.inl ?_
        constructor
        · cases he : truthyS payload.email
          · rfl
          · rw [he] at hq'
            cases hq'
        · cases hp : truthyS payload.phone
          · rfl
          · rw [hp] at hq'
            simp at hq'
    · rintro (⟨h1, h2⟩ | ⟨hq, hfind⟩ | ⟨u, pw, hs, hfind, hpweq, hpwne, hseq, hsne, hver⟩)
      · exact login_eval_no_query (by rw [h1, h2]; rfl)
      · exact login_eval_no_match (bool_or_true.mpr hq) hfind
      · by_cases hq : (truthyS payload.email || truthyS payload.phone) = true
        · have hcred : (truthyS payload.password && truthyS u.password_hash) = true :=
            bool_and_true.mpr ⟨truthyS_true_iff.mpr ⟨pw, hpweq, hpwne⟩,
              truthyS_true_iff.mpr ⟨hs, hseq, hsne⟩⟩
          rw [login_eval_verify hq hfind hcred, hpweq, hseq]
          simp only [Option.getD_some]
          rw [if_neg (by rw [hver]; simp)]
        · exact login_eval_no_query (bool_eq_false hq)
  · intro u hfind hq hfalsy
    refine login_eval_skip (bool_or_true.mpr hq) hfind ?_
    rcases hfalsy with hf | hf <;> simp [hf]

/-- C9 counterexample: the login payload submits phone `""` (present but
empty) and no password, and the store holds a user whose phone is exactly
`""`.  A query field is given, a stored user is matched by the phone given,
and no password/hash verification can be at fault — yet login fails with
401, because Python truthiness drops the empty phone from the query. -/
theorem C9_empty_phone_401_counterexample :
    ¬ (login (fun _ _ => true) ⟨none, some "", none⟩
        ⟨1, 0, [⟨0, some 0, "u", none, some "", "motorist", none, false, true⟩],
         [], [], [], [], [], [], []⟩ = Except.error 401 →
      (((⟨none, some "", none⟩ : LoginDTO).email = none ∧
        (⟨none, some "", none⟩ : LoginDTO).phone = none) ∨
       (∀ u ∈ [(⟨0, some 0, "u", none, some "", "motorist", none, false, true⟩ : UserDoc)],
          ¬((∀ e, (⟨none, some "", none⟩ : LoginDTO).email = some e → u.email = some e) ∧
            (∀ ph, (⟨none, some "", none⟩ : LoginDTO).phone = some ph → u.phone = some ph))) ∨
       (∃ pw, (⟨none, some "", none⟩ : LoginDTO).password = some pw))) := by
  intro h
  rcases h rfl with ⟨_, hp⟩ | hno | ⟨pw, hpw⟩
  · exact absurd hp (by simp)
  · refine hno ⟨0, some 0, "u", none, some "", "motorist", none, false, true⟩
      (List.mem_singleton_self _) ⟨?_, ?_⟩
    · intro e he
      simp at he
    · intro ph hph
      injection hph with hh
      rw [← hh]
  · simp at hpw
